import Mathlib

/-!
Verification development for the vscode-spotify-widget extension
(`src/extension.js`, second/current document: the URI-callback variant).

The JavaScript module state and the functions relevant to the claims are
shallowly embedded: module-level mutable variables become fields of an
explicit `ExtState` record that is threaded through each operation; the
asynchronous HTTP transports become explicit outcome parameters; UI
messages (`showErrorMessage` / `showInformationMessage`) become a
`List String` of surfaced messages; a thrown/rethrown error becomes
`Except String`.  JavaScript truthiness of the nullable values involved
(`null`/`undefined`/`""`/`0` are falsy) is modelled explicitly on
`Option String` / `Option Int`.
-/

/-- A value held in the host's durable key-value store: the extension
stores strings (token, verifier) and a number (expiry instant in ms). -/
inductive StoredValue where
  | str (s : String)
  | num (n : Int)
deriving DecidableEq

/-- Modelled from the spec: the host-provided durable key-value storage
(`context.globalState`), which is not part of this repository.  Per the
spec it is "simple key-value entries in host-provided durable storage";
an update with `none` models `update(key, undefined)`, which removes the
entry. -/
def gsUpdate (gs : List (String × StoredValue)) (k : String)
    (v : Option StoredValue) : List (String × StoredValue) :=
  match v with
  | none => gs.filter (fun p => p.1 ≠ k)
  | some v => (k, v) :: gs.filter (fun p => p.1 ≠ k)

/-- Modelled from the spec: reading a key from the host's durable
key-value storage (`context.globalState.get`). -/
def gsGet (gs : List (String × StoredValue)) (k : String) : Option StoredValue :=
  (gs.find? (fun p => p.1 = k)).map (·.2)

/-- Read a key expecting a string value (`globalState.get` of a key the
extension only ever writes strings to). -/
def gsGetStr (gs : List (String × StoredValue)) (k : String) : Option String :=
  match gsGet gs k with
  | some (.str s) => some s
  | _ => none

/-- Read a key expecting a numeric value. -/
def gsGetNum (gs : List (String × StoredValue)) (k : String) : Option Int :=
  match gsGet gs k with
  | some (.num n) => some n
  | _ => none

/-- The module-level mutable state of `extension.js`:
`accessToken`, `tokenExpiresAt`, `pendingCodeVerifier`, `lastTrackId`,
plus the durable `context.globalState` store. -/
structure ExtState where
  accessToken : Option String
  tokenExpiresAt : Option Int
  pendingCodeVerifier : Option String
  lastTrackId : Option String
  globalState : List (String × StoredValue)
deriving DecidableEq

/-- JavaScript truthiness of a nullable string: `null`/`undefined` and
`""` are falsy. -/
def jsTruthyStr : Option String → Bool
  | some s => if s = "" then false else true
  | none => false

/-- JavaScript `a || b` on nullable strings. -/
def jsOrStr (a b : Option String) : Option String :=
  match a with
  | some s => if s = "" then b else some s
  | none => b

/-- The guard `tokenExpiresAt && Date.now() >= tokenExpiresAt` of
`getCurrentTrack`: JavaScript truthiness means a missing expiry (and the
numeric value `0`) makes the whole guard false. -/
def tokenExpiredNow (now : Int) : Option Int → Bool
  | some t => if t = 0 then false else decide (now ≥ t)
  | none => false

/-- JavaScript `Array.prototype.join(sep)`. -/
def joinSep (sep : String) : List String → String
  | [] => ""
  | [a] => a
  | a :: rest => a ++ sep ++ joinSep sep rest

/-- Pattern occurs at the start of the character list. -/
def startsWithChars : List Char → List Char → Bool
  | _, [] => true
  | [], _ :: _ => false
  | a :: s, b :: p => a = b && startsWithChars s p

/-- Pattern occurs somewhere in the character list. -/
def containsChars : List Char → List Char → Bool
  | [], pat => startsWithChars [] pat
  | s@(_ :: t), pat => startsWithChars s pat || containsChars t pat

/-- Substring test, `String.prototype.includes`. -/
def strictlyContains (s pat : String) : Bool :=
  containsChars s.toList pat.toList

/-- One artist object of the currently-playing payload (`artists[i].name`). -/
structure SpotifyArtist where
  name : String
deriving DecidableEq

/-- One album image object (`album.images[i].url`). -/
structure AlbumImage where
  url : String
deriving DecidableEq

/-- The album object of a track item. -/
structure SpotifyAlbum where
  name : String
  images : List AlbumImage
deriving DecidableEq

/-- The `item` object of the currently-playing payload. -/
structure TrackItem where
  id : String
  name : String
  artists : List SpotifyArtist
  album : SpotifyAlbum
  duration_ms : Option Nat
deriving DecidableEq

/-- The parsed currently-playing payload (`data`): `item` may be absent
and `progress_ms` may be absent. -/
structure PlayingData where
  is_playing : Bool
  item : Option TrackItem
  progress_ms : Option Nat
deriving DecidableEq

/-- The track-info object posted to the webview.  The success branch of
`getCurrentTrack` carries no `error` field in JavaScript (absent is
falsy), modelled as `error := false`. -/
structure TrackInfo where
  isPlaying : Bool
  track : Option String
  artist : String
  album : String
  albumArt : String
  progress : Nat
  duration : Nat
  error : Bool
deriving DecidableEq

/-- `createEmptyTrackInfo(artist, album)` of `extension.js`. -/
def createEmptyTrackInfo (artist album : String) : TrackInfo :=
  { isPlaying := false
    track := none
    artist := artist
    album := album
    albumArt := ""
    progress := 0
    duration := 0
    error := true }

/-- The settled outcome of the `spotifyApiRequest` promise: resolution
with a payload (`null` for 204 / a parsed-null body) or rejection with an
error message. -/
inductive ApiOutcome where
  | resolved (data : Option PlayingData)
  | rejected (message : String)
deriving DecidableEq

/-- What the wire does for the currently-playing GET: a response with a
status code and raw body, a connection error, or the 5-second timeout. -/
inductive HttpWire where
  | response (status : Nat) (body : String)
  | networkError (message : String)
  | timedOut
deriving DecidableEq

/-- `spotifyApiRequest` of `extension.js`: 204 resolves `null` before the
body is read; 200 resolves the parsed JSON body or rejects with
"Failed to parse response" when `JSON.parse` throws; any other status
rejects with "`status`: `body`"; a connection error rejects with its
message; the timeout rejects with "Request timeout".  `parse` abstracts
`JSON.parse` on the body: `none` means it throws, `some d` means it
yields the (possibly null) payload `d`. -/
def spotifyApiRequest (parse : String → Option (Option PlayingData)) :
    HttpWire → ApiOutcome
  | .response 204 _ => .resolved none
  | .response 200 body =>
    match parse body with
    | some d => .resolved d
    | none => .rejected "Failed to parse response"
  | .response status body => .rejected (toString status ++ ": " ++ body)
  | .networkError m => .rejected m
  | .timedOut => .rejected "Request timeout"

/-- Result of one `getCurrentTrack` call: the snapshot, the updated
module state (only `lastTrackId` can change), and how many remote API
calls were made (0 or 1). -/
structure PollResult where
  info : TrackInfo
  state : ExtState
  apiCalls : Nat
deriving DecidableEq

/-- `getCurrentTrack` of `extension.js`.  `api` is the settled outcome of
`await spotifyApiRequest(...)`, consumed only if the two token guards
pass; `apiCalls` records whether the request was issued at all. -/
def getCurrentTrack (now : Int) (st : ExtState) (api : ApiOutcome) : PollResult :=
  if tokenExpiredNow now st.tokenExpiresAt then
    ⟨createEmptyTrackInfo "Token expired" "Please re-authenticate with Spotify", st, 0⟩
  else if ¬ jsTruthyStr st.accessToken then
    ⟨createEmptyTrackInfo "Not authenticated" "Run \"Authenticate with Spotify\" command", st, 0⟩
  else
    match api with
    | .resolved none =>
      ⟨createEmptyTrackInfo "No track playing" "Start playing music on Spotify", st, 1⟩
    | .resolved (some d) =>
      match d.item with
      | none =>
        ⟨createEmptyTrackInfo "No track playing" "Start playing music on Spotify", st, 1⟩
      | some it =>
        ⟨{ isPlaying := d.is_playing
           track := some it.name
           artist := joinSep ", " (it.artists.map SpotifyArtist.name)
           album := it.album.name
           albumArt := match it.album.images.head? with
             | some i => i.url
             | none => ""
           progress := d.progress_ms.getD 0
           duration := it.duration_ms.getD 0
           error := false },
         { st with lastTrackId := some it.id }, 1⟩
    | .rejected m =>
      if strictlyContains m "401" then
        ⟨createEmptyTrackInfo "Authentication expired" "Please re-authenticate", st, 1⟩
      else
        ⟨createEmptyTrackInfo "Connecting..." "Loading track info", st, 1⟩

/-- The parsed body of a successful token-exchange response
(`{access_token, expires_in}`; `expires_in` is in seconds). -/
structure TokenPayload where
  access_token : String
  expires_in : Int
deriving DecidableEq

/-- What the wire does for the token-exchange POST: a 200 with a parsed
JSON body, a non-200 response with its raw body, or a connection error. -/
inductive TokenWire where
  | success (p : TokenPayload)
  | httpError (status : Nat) (body : String)
  | networkError (message : String)
deriving DecidableEq

/-- `exchangeCodeForToken` of `extension.js`: resolves the parsed body on
status 200, rejects with "Token exchange failed: `body`" on any other
status, and rejects with the connection error's message otherwise. -/
def exchangeCodeForToken (wire : TokenWire) : Except String TokenPayload :=
  match wire with
  | .success p => .ok p
  | .httpError _ body => .error ("Token exchange failed: " ++ body)
  | .networkError m => .error m

/-- `completeAuthentication(code, codeVerifier, clientId, context)` of
`extension.js`.  On a successful exchange it overwrites the in-memory
token and expiry (`now + expires_in * 1000`) and both persisted keys, and
shows the success message; on a failed exchange it shows
"Authentication failed: ..." and rethrows, leaving all state untouched.
The result carries the new state, the surfaced UI messages, and
`.ok`/`.error` for normal return versus rethrow. -/
def completeAuthentication (now : Int) (st : ExtState)
    (code codeVerifier clientId : String) (wire : TokenWire) :
    ExtState × List String × Except String Unit :=
  match exchangeCodeForToken wire with
  | .ok tokens =>
    let expiresAt := now + tokens.expires_in * 1000
    let gs1 := gsUpdate st.globalState "spotifyAccessToken" (some (.str tokens.access_token))
    let gs2 := gsUpdate gs1 "spotifyTokenExpiresAt" (some (.num expiresAt))
    ({ st with accessToken := some tokens.access_token
               tokenExpiresAt := some expiresAt
               globalState := gs2 },
     ["Successfully authenticated with Spotify!"], .ok ())
  | .error m =>
    (st, ["Authentication failed: " ++ m], .error m)

/-- `handleAuthCallback(uri, context)` of `extension.js`.  `code` is
`new URLSearchParams(uri.query).get('code')`.  The verifier is the
in-memory pending verifier or its durable fallback copy; with no pending
verifier the callback is rejected with the session-expired message.  The
pending verifier (both copies) is cleared only on the lines after
`await completeAuthentication(...)`, so a rethrown exchange failure jumps
to the catch block and skips the clearing.  The try/catch ensures the
function itself never throws: the result is the new state plus the
surfaced messages. -/
def handleAuthCallback (now : Int) (st : ExtState) (code : Option String)
    (clientId : String) (wire : TokenWire) : ExtState × List String :=
  if ¬ jsTruthyStr code then
    (st, ["No authorization code found in callback"])
  else
    let codeVerifier :=
      jsOrStr st.pendingCodeVerifier (gsGetStr st.globalState "pendingCodeVerifier")
    if ¬ jsTruthyStr codeVerifier then
      (st, ["Authentication session expired. Please try again."])
    else
      match completeAuthentication now st (code.getD "") (codeVerifier.getD "")
              clientId wire with
      | (st1, msgs, .ok _) =>
        ({ st1 with pendingCodeVerifier := none
                    globalState := gsUpdate st1.globalState "pendingCodeVerifier" none },
         msgs)
      | (st1, msgs, .error m) =>
        (st1, msgs ++ ["Failed to handle authentication callback: " ++ m])

/-- The verifier-arming prefix of `authenticateSpotify` in
`extension.js`: the freshly generated verifier is stored as the pending
attempt, in memory and as the durable fallback copy
(`pendingCodeVerifier = codeVerifier` and
`globalState.update('pendingCodeVerifier', codeVerifier)`). -/
def authenticateSpotifyArm (st : ExtState) (codeVerifier : String) : ExtState :=
  { st with
      pendingCodeVerifier := some codeVerifier
      globalState := gsUpdate st.globalState "pendingCodeVerifier"
        (some (.str codeVerifier)) }

/-- The manual-paste continuation of `authenticateSpotify` in
`extension.js` (`if (manualInput) await completeAuthentication(
manualInput.trim(), codeVerifier, clientId, context)`): if an input was
provided it completes with the closure-captured `codeVerifier`, never
consulting or clearing the stored pending verifier, and with no
surrounding try/catch, so a rethrown exchange failure propagates out of
`authenticateSpotify`. -/
def authenticateManualCompletion (now : Int) (st : ExtState)
    (manualInput : Option String) (codeVerifier clientId : String)
    (wire : TokenWire) : ExtState × List String × Except String Unit :=
  if jsTruthyStr manualInput then
    completeAuthentication now st ((manualInput.getD "").trim) codeVerifier
      clientId wire
  else
    (st, [], .ok ())

/-- `authenticateSpotify(context)` of `extension.js`, on the path with no
interleaved redirect callback: arm the pending verifier, then — when the
user chose "Open Spotify Login" (`opened`) — run the manual-paste
continuation.  The challenge/URL construction, the informational prompt
and the external-browser side effects carry no state and are elided. -/
def authenticateSpotify (now : Int) (st : ExtState)
    (codeVerifier clientId : String) (opened : Bool)
    (manualInput : Option String) (wire : TokenWire) :
    ExtState × List String × Except String Unit :=
  let st1 := authenticateSpotifyArm st codeVerifier
  if opened then
    authenticateManualCompletion now st1 manualInput codeVerifier clientId wire
  else
    (st1, [], .ok ())

/-- The state-loading part of `activate` in `extension.js`: the in-memory
token and expiry are read back from the durable store. -/
def activateLoad (gs : List (String × StoredValue)) : ExtState :=
  { accessToken := gsGetStr gs "spotifyAccessToken"
    tokenExpiresAt := gsGetNum gs "spotifyTokenExpiresAt"
    pendingCodeVerifier := none
    lastTrackId := none
    globalState := gs }

/-- The three UI control actions. -/
inductive SpotifyCommand where
  | playPause
  | next
  | previous
deriving DecidableEq

/-- The PowerShell snippets of `sendSpotifyCommand` (media-key
`SendKeys` values 179/176/177). -/
def psCommands : SpotifyCommand → String
  | .playPause => "(New-Object -ComObject WScript.Shell).SendKeys([char]179)"
  | .next => "(New-Object -ComObject WScript.Shell).SendKeys([char]176)"
  | .previous => "(New-Object -ComObject WScript.Shell).SendKeys([char]177)"

/-- The full command line passed to `exec`. -/
def execCommandLine (cmd : SpotifyCommand) : String :=
  "powershell -command \"" ++ psCommands cmd ++ "\""

/-- The outcome of the keystroke injection (`exec` callback). -/
inductive ExecOutcome where
  | ok
  | failed (message : String)
deriving DecidableEq

/-- The observable effects of one `sendSpotifyCommand` call: the command
line handed to `exec` and the messages logged by its callback. -/
structure CommandEffect where
  execLine : String
  logs : List String
deriving DecidableEq

/-- `sendSpotifyCommand(command)` of `extension.js`: fire-and-forget; it
hands one PowerShell command line to `exec`, a failed injection is only
logged via the `exec` callback, no module state is read or written, and
nothing is returned (`Unit`). -/
def sendSpotifyCommand (cmd : SpotifyCommand) (outcome : ExecOutcome)
    (st : ExtState) : ExtState × CommandEffect × Unit :=
  (st,
   { execLine := execCommandLine cmd
     logs := match outcome with
       | .ok => []
       | .failed m => ["Error sending command: " ++ m] },
   ())

/-- Truncation to a 32-bit word. -/
def w32 (n : Nat) : Nat := n % 4294967296

/-- 32-bit right rotation (for `x < 2^32`, `1 ≤ n ≤ 31`). -/
def rotr32 (x n : Nat) : Nat := w32 ((x >>> n) ||| (x <<< (32 - n)))

/-- 32-bit bitwise complement. -/
def bnot32 (x : Nat) : Nat := x ^^^ 4294967295

/-- SHA-256 Σ0. -/
def bigSigma0 (x : Nat) : Nat := rotr32 x 2 ^^^ rotr32 x 13 ^^^ rotr32 x 22

/-- SHA-256 Σ1. -/
def bigSigma1 (x : Nat) : Nat := rotr32 x 6 ^^^ rotr32 x 11 ^^^ rotr32 x 25

/-- SHA-256 σ0. -/
def smallSigma0 (x : Nat) : Nat := rotr32 x 7 ^^^ rotr32 x 18 ^^^ (x >>> 3)

/-- SHA-256 σ1. -/
def smallSigma1 (x : Nat) : Nat := rotr32 x 17 ^^^ rotr32 x 19 ^^^ (x >>> 10)

/-- SHA-256 Ch. -/
def chFn (x y z : Nat) : Nat := (x &&& y) ^^^ (bnot32 x &&& z)

/-- SHA-256 Maj. -/
def majFn (x y z : Nat) : Nat := (x &&& y) ^^^ (x &&& z) ^^^ (y &&& z)

/-- The SHA-256 round constants. -/
def sha256K : List Nat :=
  [1116352408, 1899447441, 3049323471, 3921009573, 961987163, 1508970993,
   2453635748, 2870763221, 3624381080, 310598401, 607225278, 1426881987,
   1925078388, 2162078206, 2614888103, 3248222580, 3835390401, 4022224774,
   264347078, 604807628, 770255983, 1249150122, 1555081692, 1996064986,
   2554220882, 2821834349, 2952996808, 3210313671, 3336571891, 3584528711,
   113926993, 338241895, 666307205, 773529912, 1294757372, 1396182291,
   1695183700, 1986661051, 2177026350, 2456956037, 2730485921, 2820302411,
   3259730800, 3345764771, 3516065817, 3600352804, 4094571909, 275423344,
   430227734, 506948616, 659060556, 883997877, 958139571, 1322822218,
   1537002063, 1747873779, 1955562222, 2024104815, 2227730452, 2361852424,
   2428436474, 2756734187, 3204031479, 3329325298]

/-- The SHA-256 initial hash value. -/
def sha256H0 : List Nat :=
  [1779033703, 3144134277, 1013904242, 2773480762,
   1359893119, 2600822924, 528734635, 1541459225]

/-- `k` bytes of `n`, big-endian. -/
def beBytes : Nat → Nat → List Nat
  | 0, _ => []
  | k + 1, n => beBytes k (n / 256) ++ [n % 256]

/-- SHA-256 message padding: append `0x80`, zero bytes up to 56 mod 64,
then the 8-byte big-endian bit length. -/
def sha256Pad (msg : List Nat) : List Nat :=
  let padZeros := (119 - msg.length % 64) % 64
  msg ++ [0x80] ++ List.replicate padZeros 0 ++ beBytes 8 (8 * msg.length)

/-- Big-endian 32-bit words of a byte list (whole 4-byte groups). -/
def bytesToWordsBE : List Nat → List Nat
  | b0 :: b1 :: b2 :: b3 :: rest =>
    (b0 * 16777216 + b1 * 65536 + b2 * 256 + b3) :: bytesToWordsBE rest
  | _ => []

/-- Extend the 16-word message schedule by `fuel` further words. -/
def extendSchedule : List Nat → Nat → List Nat
  | w, 0 => w
  | w, fuel + 1 =>
    let n := w.length
    extendSchedule
      (w ++ [w32 (smallSigma1 (w.getD (n - 2) 0) + w.getD (n - 7) 0
                  + smallSigma0 (w.getD (n - 15) 0) + w.getD (n - 16) 0)])
      fuel

/-- The SHA-256 compression rounds over the working variables
`[a,b,c,d,e,f,g,h]`, consuming one `(K_t, W_t)` pair per round. -/
def sha256Rounds : List Nat → List (Nat × Nat) → List Nat
  | st, [] => st
  | [a, b, c, d, e, f, g, h], (k, w) :: rest =>
    let t1 := w32 (h + bigSigma1 e + chFn e f g + k + w)
    let t2 := w32 (bigSigma0 a + majFn a b c)
    sha256Rounds [w32 (t1 + t2), a, b, c, w32 (d + t1), e, f, g] rest
  | st, _ :: rest => sha256Rounds st rest

/-- Process one 64-byte block: schedule, 64 rounds, then add the working
variables back into the hash state. -/
def processBlock (h block : List Nat) : List Nat :=
  let w := extendSchedule (bytesToWordsBE block) 48
  let st := sha256Rounds h (sha256K.zip w)
  (h.zip st).map (fun p => w32 (p.1 + p.2))

/-- Fold the hash state over successive 64-byte blocks; `fuel` bounds the
number of steps (any value at least the number of blocks is enough). -/
def sha256Blocks : Nat → List Nat → List Nat → List Nat
  | 0, h, _ => h
  | _, h, [] => h
  | fuel + 1, h, m => sha256Blocks fuel (processBlock h (m.take 64)) (m.drop 64)

/-- SHA-256 of a byte list (`crypto.createHash('sha256')`), as the
32-byte big-endian digest. -/
def sha256 (msg : List Nat) : List Nat :=
  let p := sha256Pad msg
  ((sha256Blocks p.length sha256H0 p).map (beBytes 4)).flatten

/-- UTF-8 encoding of one character, as bytes. -/
def utf8EncodeChar (c : Char) : List Nat :=
  let n := c.toNat
  if n < 128 then [n]
  else if n < 2048 then [192 + n / 64, 128 + n % 64]
  else if n < 65536 then [224 + n / 4096, 128 + (n / 64) % 64, 128 + n % 64]
  else [240 + n / 262144, 128 + (n / 4096) % 64, 128 + (n / 64) % 64, 128 + n % 64]

/-- UTF-8 bytes of a string (what `hash.update(str)` digests in Node). -/
def utf8Bytes (s : String) : List Nat :=
  (s.toList.map utf8EncodeChar).flatten

/-- The standard base64 alphabet. -/
def b64StdAlphabet : List Char :=
  "ABCDEFGHIJKLMNOPQRSTUVWXYZabcdefghijklmnopqrstuvwxyz0123456789+/".toList

/-- The URL-safe base64 alphabet. -/
def b64UrlAlphabet : List Char :=
  "ABCDEFGHIJKLMNOPQRSTUVWXYZabcdefghijklmnopqrstuvwxyz0123456789-_".toList

/-- Character `n` of the standard base64 alphabet. -/
def b64Char (n : Nat) : Char := b64StdAlphabet.getD n 'A'

/-- Character `n` of the URL-safe base64 alphabet. -/
def b64UrlChar (n : Nat) : Char := b64UrlAlphabet.getD n 'A'

/-- Standard base64 encoding of a byte list, with `=` padding
(`Buffer.prototype.toString('base64')`). -/
def b64EncodeChars : List Nat → List Char
  | [] => []
  | [a] => [b64Char (a >>> 2), b64Char ((a &&& 3) <<< 4), '=', '=']
  | [a, b] => [b64Char (a >>> 2), b64Char (((a &&& 3) <<< 4) ||| (b >>> 4)),
               b64Char ((b &&& 15) <<< 2), '=']
  | a :: b :: c :: rest =>
    b64Char (a >>> 2) :: b64Char (((a &&& 3) <<< 4) ||| (b >>> 4)) ::
    b64Char (((b &&& 15) <<< 2) ||| (c >>> 6)) :: b64Char (c &&& 63) ::
    b64EncodeChars rest

/-- Direct URL-safe base64 encoding with no padding: the independent
reference for "URL-safe-base64 (no padding)" from the spec. -/
def b64UrlEncodeChars : List Nat → List Char
  | [] => []
  | [a] => [b64UrlChar (a >>> 2), b64UrlChar ((a &&& 3) <<< 4)]
  | [a, b] => [b64UrlChar (a >>> 2), b64UrlChar (((a &&& 3) <<< 4) ||| (b >>> 4)),
               b64UrlChar ((b &&& 15) <<< 2)]
  | a :: b :: c :: rest =>
    b64UrlChar (a >>> 2) :: b64UrlChar (((a &&& 3) <<< 4) ||| (b >>> 4)) ::
    b64UrlChar (((b &&& 15) <<< 2) ||| (c >>> 6)) :: b64UrlChar (c &&& 63) ::
    b64UrlEncodeChars rest

/-- Node `buffer.toString('base64')`. -/
def bufferToBase64 (bytes : List Nat) : String := String.mk (b64EncodeChars bytes)

/-- One global single-character replacement, `str.replace(/a/g, b)`. -/
def replaceAllChar (a b : Char) (s : String) : String :=
  String.mk (s.toList.map (fun c => if c = a then b else c))

/-- Global removal of one character, `str.replace(/a/g, '')`. -/
def removeAllChar (a : Char) (s : String) : String :=
  String.mk (s.toList.filter (fun c => ¬ c = a))

/-- `base64URLEncode(buffer)` of `extension.js`: standard base64, then
`+` → `-`, `/` → `_`, and all `=` removed. -/
def base64URLEncode (bytes : List Nat) : String :=
  removeAllChar '=' (replaceAllChar '/' '_' (replaceAllChar '+' '-' (bufferToBase64 bytes)))

/-- The spec-side reference encoding: direct URL-safe base64, no padding. -/
def base64UrlNoPad (bytes : List Nat) : String := String.mk (b64UrlEncodeChars bytes)

/-- `generateCodeChallenge(codeVerifier)` of `extension.js`: the
URL-safe base64 encoding of the SHA-256 digest of the verifier. -/
def generateCodeChallenge (codeVerifier : String) : String :=
  base64URLEncode (sha256 (utf8Bytes codeVerifier))

/-- The five (headline, detail) pairs `getCurrentTrack` ever passes to
`createEmptyTrackInfo`. -/
def degradedPairs : List (String × String) :=
  [("Token expired", "Please re-authenticate with Spotify"),
   ("Not authenticated", "Run \"Authenticate with Spotify\" command"),
   ("No track playing", "Start playing music on Spotify"),
   ("Authentication expired", "Please re-authenticate"),
   ("Connecting...", "Loading track info")]

example :
    getCurrentTrack 10
      ⟨some "tok", some 5, none, none, []⟩ (.resolved none)
      = ⟨createEmptyTrackInfo "Token expired" "Please re-authenticate with Spotify",
         ⟨some "tok", some 5, none, none, []⟩, 0⟩ := by decide

example :
    generateCodeChallenge "" = "47DEQpj8HBSa-_TImW-5JCeuQeRkm5NMpJWZG3hSuFU" := by decide

theorem b64Char_default (n : Nat) (h : 64 ≤ n) :
    b64Char n = 'A' ∧ b64UrlChar n = 'A' := by
  have hs : b64StdAlphabet.length = 64 := by decide
  have hu : b64UrlAlphabet.length = 64 := by decide
  unfold b64Char b64UrlChar
  constructor <;> (apply List.getD_eq_default; omega)

theorem replChain_b64Char (n : Nat) :
    (if (if b64Char n = '+' then '-' else b64Char n) = '/' then '_'
     else (if b64Char n = '+' then '-' else b64Char n)) = b64UrlChar n := by
  by_cases h : n < 64
  · have key : ∀ m, m < 64 →
        (if (if b64Char m = '+' then '-' else b64Char m) = '/' then '_'
         else (if b64Char m = '+' then '-' else b64Char m)) = b64UrlChar m := by decide
    exact key n h
  · obtain ⟨h1, h2⟩ := b64Char_default n (le_of_not_lt h)
    rw [h1, h2]
    decide

theorem b64Char_ne_pad (n : Nat) : ¬ b64Char n = '=' := by
  by_cases h : n < 64
  · have key : ∀ m, m < 64 → ¬ b64Char m = '=' := by decide
    exact key n h
  · rw [(b64Char_default n (le_of_not_lt h)).1]
    decide

theorem b64UrlChar_ne_pad (n : Nat) : ¬ b64UrlChar n = '=' := by
  by_cases h : n < 64
  · have key : ∀ m, m < 64 → ¬ b64UrlChar m = '=' := by decide
    exact key n h
  · rw [(b64Char_default n (le_of_not_lt h)).2]
    decide

theorem b64EncodeChars_to_url (l : List Nat) :
    ((((b64EncodeChars l).map (fun c => if c = '+' then '-' else c)).map
        (fun c => if c = '/' then '_' else c)).filter (fun c => ¬ c = '=')) =
      b64UrlEncodeChars l := by
  induction l using b64EncodeChars.induct with
  | case1 =>
    simp [b64EncodeChars, b64UrlEncodeChars]
  | case2 a =>
    simp [b64EncodeChars, b64UrlEncodeChars,
      replChain_b64Char, b64UrlChar_ne_pad]
  | case3 a b =>
    simp [b64EncodeChars, b64UrlEncodeChars,
      replChain_b64Char, b64UrlChar_ne_pad]
  | case4 a b c rest ih =>
    simp only [b64EncodeChars, b64UrlEncodeChars, List.map_cons, List.filter_cons]
    simp [replChain_b64Char, b64UrlChar_ne_pad] at ih ⊢
    exact ih

theorem gsGet_update_self (gs : List (String × StoredValue)) (k : String)
    (v : StoredValue) : gsGet (gsUpdate gs k (some v)) k = some v := by
  simp [gsGet, gsUpdate, List.find?_cons]

theorem find?_filter_self_none (k : String) (l : List (String × StoredValue)) :
    (l.filter (fun p => ¬ p.1 = k)).find? (fun p => p.1 = k) = none := by
  induction l with
  | nil => rfl
  | cons p t ih =>
    by_cases h : p.1 = k
    · simpa [List.filter_cons, h] using ih
    · simp [List.filter_cons, h, List.find?_cons, ih]

theorem gsGet_update_none_self (gs : List (String × StoredValue)) (k : String) :
    gsGet (gsUpdate gs k none) k = none := by
  unfold gsGet gsUpdate
  rw [find?_filter_self_none]
  rfl

theorem gsGetStr_update_none_self (gs : List (String × StoredValue)) (k : String) :
    gsGetStr (gsUpdate gs k none) k = none := by
  unfold gsGetStr
  rw [gsGet_update_none_self]

/-- Claim C4: for every verifier string, the derived code challenge is a
deterministic function of the verifier, equal to the URL-safe base64
encoding (standard base64 with `+` → `-`, `/` → `_`, and all `=` padding
removed — equivalently, direct URL-safe-alphabet base64 without padding)
of the SHA-256 digest of the verifier's UTF-8 bytes. -/
theorem c4_code_challenge (v : String) :
    generateCodeChallenge v
        = removeAllChar '=' (replaceAllChar '/' '_' (replaceAllChar '+' '-'
            (bufferToBase64 (sha256 (utf8Bytes v)))))
      ∧ generateCodeChallenge v = base64UrlNoPad (sha256 (utf8Bytes v)) := by
  refine ⟨rfl, ?_⟩
  unfold generateCodeChallenge base64URLEncode removeAllChar replaceAllChar
    bufferToBase64 base64UrlNoPad
  exact congrArg String.mk (b64EncodeChars_to_url (sha256 (utf8Bytes v)))

/-- Claim C1 (counterexample): with no credential expiry recorded at all
(`tokenExpiresAt = none`), `getCurrentTrack` does not return the
"token expired" snapshot — the JavaScript guard
`tokenExpiresAt && Date.now() >= tokenExpiresAt` is falsy, and the call
falls through to the missing-token check ("Not authenticated"). -/
theorem c1_counterexample :
    (getCurrentTrack 1000 ⟨none, none, none, none, []⟩ (.resolved none)).info
      ≠ createEmptyTrackInfo "Token expired" "Please re-authenticate with Spotify"
    ∧ (getCurrentTrack 1000 ⟨none, none, none, none, []⟩ (.resolved none)).info
      = createEmptyTrackInfo "Not authenticated" "Run \"Authenticate with Spotify\" command" := by
  constructor
  · decide
  · decide

/-- Claim C1 (amended): for every poll, if a (nonzero) credential expiry
is recorded and the current time is greater than or equal to it,
`getCurrentTrack` returns the "token expired" snapshot without making any
remote API call, before the missing-token check; with no expiry recorded
this branch does not fire. -/
theorem c1_expiry_guard (now t : Int) (st : ExtState) (api : ApiOutcome)
    (hrec : st.tokenExpiresAt = some t) (hnz : t ≠ 0) (hle : t ≤ now) :
    getCurrentTrack now st api =
      ⟨createEmptyTrackInfo "Token expired" "Please re-authenticate with Spotify", st, 0⟩ := by
  unfold getCurrentTrack
  rw [hrec]
  unfold tokenExpiredNow
  simp [hnz, hle]

theorem c1_witness :
    ((⟨none, some 5, none, none, []⟩ : ExtState).tokenExpiresAt = some 5)
    ∧ ((5 : Int) ≠ 0)
    ∧ ((5 : Int) ≤ 10)
    ∧ getCurrentTrack 10 ⟨none, some 5, none, none, []⟩ (.resolved none) =
        ⟨createEmptyTrackInfo "Token expired" "Please re-authenticate with Spotify",
         ⟨none, some 5, none, none, []⟩, 0⟩ :=
  ⟨rfl, by decide, by decide,
   c1_expiry_guard 10 5 ⟨none, some 5, none, none, []⟩ (.resolved none)
     rfl (by decide) (by decide)⟩

/-- Claim C2 (counterexample): the original claim fails in two ways.
A completion attempt that fails (a network error during the token
exchange) does not clear the stored pending code verifier — the clearing
lines in `handleAuthCallback` sit after the rethrowing
`await completeAuthentication(...)`, so the failure jumps to the catch
block and skips them.  And the manual-paste channel never clears the
stored pending verifier even on success, never consults it (here it is
armed with a different value than the closure verifier it completes
with), and on a failed exchange it propagates the error with an
"Authentication failed" message rather than rejecting with the
"session expired" condition. -/
theorem c2_counterexample :
    ((handleAuthCallback 0 ⟨none, none, some "ver", none, []⟩ (some "code") "cid"
        (.networkError "boom")).1.pendingCodeVerifier ≠ none)
    ∧ ((authenticateSpotify 0 ⟨none, none, none, none, []⟩ "ver" "cid" true (some "code")
        (.success ⟨"tok", 3600⟩)).1.pendingCodeVerifier = some "ver")
    ∧ ((authenticateManualCompletion 0 ⟨none, none, some "other", none, []⟩ (some "code2")
        "ver" "cid" (.networkError "again")).2.2 = .error "again")
    ∧ ((authenticateManualCompletion 0 ⟨none, none, some "other", none, []⟩ (some "code2")
        "ver" "cid" (.networkError "again")).2.1 = ["Authentication failed: again"]) :=
  ⟨by decide, by decide, rfl, by decide⟩

theorem ne_empty_of_jsTruthy (s : String) (h : jsTruthyStr (some s) = true) :
    ¬ s = "" := by
  intro he
  subst he
  simp [jsTruthyStr] at h

theorem authFailedMsg_ne_session (m : String) :
    "Authentication failed: " ++ m ≠ "Authentication session expired. Please try again." := by
  intro h
  have h4 : ("Authentication failed: ").data ++ m.data
      = ("Authentication session ").data ++ ("expired. Please try again.").data :=
    congrArg String.data h
  have h5 := List.append_inj_left h4 (by decide)
  exact absurd h5 (by decide)

/-- Claim C2 (amended): only the redirect-callback channel
(`handleAuthCallback`) consults and clears the stored pending code
verifier, and it clears both copies only after a successful completion
attempt, retaining them after a failed one; consequently a second
delivery through the redirect callback after a first successful callback
completion finds no pending verifier and is rejected with the
"session expired" condition, leaving the state unchanged and without
throwing.  The manual-paste channel (`authenticateSpotify`) neither
consults nor clears the stored pending verifier: it completes with its
closure-captured verifier, is never rejected with the session-expired
condition, leaves the pending verifier armed even after a successful
completion (so a later redirect delivery finds it and re-attempts the
exchange rather than being rejected), and propagates a failed exchange
as a thrown error. -/
theorem c2_verifier_lifecycle (now now2 now3 now4 : Int) (st stM : ExtState)
    (c c2 c3 inputM cid cid2 cid3 cidM vM : String)
    (p p2 : TokenPayload) (m : String) (wire2 wireM : TokenWire)
    (hc : jsTruthyStr (some c) = true) (hc2 : jsTruthyStr (some c2) = true)
    (hc3 : jsTruthyStr (some c3) = true)
    (hinp : jsTruthyStr (some inputM) = true)
    (hvM : jsTruthyStr (some vM) = true)
    (hv : jsTruthyStr
        (jsOrStr st.pendingCodeVerifier (gsGetStr st.globalState "pendingCodeVerifier"))
        = true) :
    ((handleAuthCallback now st (some c) cid (.success p)).1.pendingCodeVerifier = none)
    ∧ (gsGetStr (handleAuthCallback now st (some c) cid (.success p)).1.globalState
        "pendingCodeVerifier" = none)
    ∧ (handleAuthCallback now2 (handleAuthCallback now st (some c) cid (.success p)).1
        (some c2) cid2 wire2
      = ((handleAuthCallback now st (some c) cid (.success p)).1,
         ["Authentication session expired. Please try again."]))
    ∧ ((handleAuthCallback now st (some c) cid (.networkError m)).1.pendingCodeVerifier
        = st.pendingCodeVerifier)
    ∧ ((authenticateManualCompletion now3 stM (some inputM) vM cidM wireM).1.pendingCodeVerifier
        = stM.pendingCodeVerifier)
    ∧ (authenticateManualCompletion now3 stM (some inputM) vM cidM wireM
        = completeAuthentication now3 stM inputM.trim vM cidM wireM)
    ∧ ((authenticateManualCompletion now3 stM (some inputM) vM cidM
        (.networkError m)).2.2 = .error m)
    ∧ ("Authentication session expired. Please try again."
        ∉ (authenticateManualCompletion now3 stM (some inputM) vM cidM wireM).2.1)
    ∧ ((authenticateSpotify now3 stM vM cidM true (some inputM)
        (.success p)).1.pendingCodeVerifier = some vM)
    ∧ ((handleAuthCallback now4
          (authenticateSpotify now3 stM vM cidM true (some inputM) (.success p)).1
          (some c3) cid3 (.success p2)).2
        = ["Successfully authenticated with Spotify!"]) := by
  have h1 : handleAuthCallback now st (some c) cid (.success p) =
      ({ (completeAuthentication now st (c) ((jsOrStr st.pendingCodeVerifier
            (gsGetStr st.globalState "pendingCodeVerifier")).getD "") cid (.success p)).1 with
          pendingCodeVerifier := none
          globalState := gsUpdate (completeAuthentication now st (c)
            ((jsOrStr st.pendingCodeVerifier
              (gsGetStr st.globalState "pendingCodeVerifier")).getD "") cid (.success p)).1.globalState
            "pendingCodeVerifier" none },
       ["Successfully authenticated with Spotify!"]) := by
    unfold handleAuthCallback
    simp [hc, hv, completeAuthentication, exchangeCodeForToken, Option.getD]
  have hmanual : authenticateManualCompletion now3 stM (some inputM) vM cidM wireM
      = completeAuthentication now3 stM inputM.trim vM cidM wireM := by
    unfold authenticateManualCompletion
    simp [hinp]
  refine ⟨?_, ?_, ?_, ?_, ?_, hmanual, ?_, ?_, ?_, ?_⟩
  · rw [h1]
  · rw [h1]
    exact gsGetStr_update_none_self _ _
  · rw [h1]
    unfold handleAuthCallback
    simp [hc2, jsOrStr, gsGetStr_update_none_self, jsTruthyStr,
      ne_empty_of_jsTruthy c2 hc2]
  · unfold handleAuthCallback
    simp [hc, hv, completeAuthentication, exchangeCodeForToken]
  · rw [hmanual]
    cases wireM <;> simp [completeAuthentication, exchangeCodeForToken]
  · unfold authenticateManualCompletion
    simp [hinp, completeAuthentication, exchangeCodeForToken]
  · rw [hmanual]
    cases wireM with
    | success q =>
      simp [completeAuthentication, exchangeCodeForToken]
    | httpError s b =>
      simp [completeAuthentication, exchangeCodeForToken]
      intro h
      exact authFailedMsg_ne_session _ h.symm
    | networkError m2 =>
      simp [completeAuthentication, exchangeCodeForToken]
      intro h
      exact authFailedMsg_ne_session _ h.symm
  · unfold authenticateSpotify authenticateSpotifyArm authenticateManualCompletion
    simp [hinp, completeAuthentication, exchangeCodeForToken]
  · unfold authenticateSpotify authenticateSpotifyArm authenticateManualCompletion
      handleAuthCallback
    simp [completeAuthentication, exchangeCodeForToken, jsOrStr, jsTruthyStr,
      ne_empty_of_jsTruthy vM hvM, ne_empty_of_jsTruthy c3 hc3,
      ne_empty_of_jsTruthy inputM hinp]

theorem c2_witness :
    (jsTruthyStr (some "code") = true)
    ∧ (jsTruthyStr (some "code2") = true)
    ∧ (jsTruthyStr (some "code3") = true)
    ∧ (jsTruthyStr (some "paste") = true)
    ∧ (jsTruthyStr (some "vm") = true)
    ∧ (jsTruthyStr (jsOrStr (some "ver")
        (gsGetStr ([] : List (String × StoredValue)) "pendingCodeVerifier")) = true)
    ∧ (((handleAuthCallback 0 ⟨none, none, some "ver", none, []⟩ (some "code") "cid"
          (.success ⟨"tok", 3600⟩)).1.pendingCodeVerifier = none)
      ∧ (gsGetStr (handleAuthCallback 0 ⟨none, none, some "ver", none, []⟩ (some "code") "cid"
            (.success ⟨"tok", 3600⟩)).1.globalState "pendingCodeVerifier" = none)
      ∧ (handleAuthCallback 1
            (handleAuthCallback 0 ⟨none, none, some "ver", none, []⟩ (some "code") "cid"
              (.success ⟨"tok", 3600⟩)).1 (some "code2") "cid" (.networkError "again")
          = ((handleAuthCallback 0 ⟨none, none, some "ver", none, []⟩ (some "code") "cid"
              (.success ⟨"tok", 3600⟩)).1,
             ["Authentication session expired. Please try again."]))
      ∧ ((handleAuthCallback 0 ⟨none, none, some "ver", none, []⟩ (some "code") "cid"
            (.networkError "boom")).1.pendingCodeVerifier
          = (⟨none, none, some "ver", none, []⟩ : ExtState).pendingCodeVerifier)
      ∧ ((authenticateManualCompletion 2 ⟨none, none, none, none, []⟩ (some "paste") "vm" "cid"
            (.httpError 400 "bad")).1.pendingCodeVerifier
          = (⟨none, none, none, none, []⟩ : ExtState).pendingCodeVerifier)
      ∧ (authenticateManualCompletion 2 ⟨none, none, none, none, []⟩ (some "paste") "vm" "cid"
            (.httpError 400 "bad")
          = completeAuthentication 2 ⟨none, none, none, none, []⟩ ("paste").trim "vm" "cid"
            (.httpError 400 "bad"))
      ∧ ((authenticateManualCompletion 2 ⟨none, none, none, none, []⟩ (some "paste") "vm" "cid"
            (.networkError "boom")).2.2 = .error "boom")
      ∧ ("Authentication session expired. Please try again."
          ∉ (authenticateManualCompletion 2 ⟨none, none, none, none, []⟩ (some "paste") "vm" "cid"
              (.httpError 400 "bad")).2.1)
      ∧ ((authenticateSpotify 2 ⟨none, none, none, none, []⟩ "vm" "cid" true (some "paste")
            (.success ⟨"tok", 3600⟩)).1.pendingCodeVerifier = some "vm")
      ∧ ((handleAuthCallback 3
            (authenticateSpotify 2 ⟨none, none, none, none, []⟩ "vm" "cid" true (some "paste")
              (.success ⟨"tok", 3600⟩)).1 (some "code3") "cid" (.success ⟨"tok2", 60⟩)).2
          = ["Successfully authenticated with Spotify!"])) :=
  ⟨by decide, by decide, by decide, by decide, by decide, by decide,
   c2_verifier_lifecycle 0 1 2 3 ⟨none, none, some "ver", none, []⟩
     ⟨none, none, none, none, []⟩ "code" "code2" "code3" "paste" "cid" "cid" "cid" "cid" "vm"
     ⟨"tok", 3600⟩ ⟨"tok2", 60⟩ "boom" (.networkError "again") (.httpError 400 "bad")
     (by decide) (by decide) (by decide) (by decide) (by decide) (by decide)⟩

/-- Claim C3: for every call to `completeAuthentication`, a successful
token exchange replaces the stored credential — in memory and in the
durable store — by the new access token and an expiry of the current
time plus the returned `expires_in` (seconds, stored as milliseconds),
surfacing the success message; a failed exchange surfaces
"Authentication failed: ..." and rethrows, leaving all prior state
completely unchanged. -/
theorem c3_token_exchange (now : Int) (st : ExtState) (code v cid : String)
    (p : TokenPayload) (m : String) (wireF : TokenWire)
    (hf : exchangeCodeForToken wireF = .error m) :
    completeAuthentication now st code v cid (.success p) =
      ({ st with
          accessToken := some p.access_token
          tokenExpiresAt := some (now + p.expires_in * 1000)
          globalState := gsUpdate
            (gsUpdate st.globalState "spotifyAccessToken" (some (.str p.access_token)))
            "spotifyTokenExpiresAt" (some (.num (now + p.expires_in * 1000))) },
       ["Successfully authenticated with Spotify!"], .ok ())
    ∧ completeAuthentication now st code v cid wireF =
        (st, ["Authentication failed: " ++ m], .error m) := by
  constructor
  · rfl
  · unfold completeAuthentication
    rw [hf]

theorem c3_witness :
    (exchangeCodeForToken (.networkError "boom") = .error "boom")
    ∧ (completeAuthentication 100 ⟨some "old", some 7, none, none, []⟩ "c" "v" "cid"
          (.success ⟨"new", 3600⟩) =
        ({ (⟨some "old", some 7, none, none, []⟩ : ExtState) with
            accessToken := some "new"
            tokenExpiresAt := some (100 + 3600 * 1000)
            globalState := gsUpdate
              (gsUpdate ([] : List (String × StoredValue)) "spotifyAccessToken"
                (some (.str "new")))
              "spotifyTokenExpiresAt" (some (.num (100 + 3600 * 1000))) },
         ["Successfully authenticated with Spotify!"], .ok ())
      ∧ completeAuthentication 100 ⟨some "old", some 7, none, none, []⟩ "c" "v" "cid"
          (.networkError "boom") =
        (⟨some "old", some 7, none, none, []⟩,
         ["Authentication failed: " ++ "boom"], .error "boom")) :=
  ⟨rfl,
   c3_token_exchange 100 ⟨some "old", some 7, none, none, []⟩ "c" "v" "cid"
     ⟨"new", 3600⟩ "boom" (.networkError "boom") rfl⟩

/-- Claim C5: with valid-looking credentials, every failure of the
currently-playing request yields a snapshot rather than an exception
escaping `getCurrentTrack`: a rejection whose message contains "401"
yields the "authentication expired" snapshot; any other rejection —
including the transport timeout, a parse failure of the body, and any
other non-200 status — yields the transient "connecting" snapshot (a 401
status itself rejects with a message containing "401"). -/
theorem c5_failure_snapshots (now : Int) (st : ExtState) (m401 mOth body : String)
    (parse : String → Option (Option PlayingData))
    (hexp : tokenExpiredNow now st.tokenExpiresAt = false)
    (htok : jsTruthyStr st.accessToken = true)
    (h401 : strictlyContains m401 "401" = true)
    (hoth : strictlyContains mOth "401" = false)
    (hbad : parse body = none) :
    (getCurrentTrack now st (.rejected m401) =
      ⟨createEmptyTrackInfo "Authentication expired" "Please re-authenticate", st, 1⟩)
    ∧ (getCurrentTrack now st (.rejected mOth) =
      ⟨createEmptyTrackInfo "Connecting..." "Loading track info", st, 1⟩)
    ∧ (spotifyApiRequest parse .timedOut = .rejected "Request timeout")
    ∧ (getCurrentTrack now st (spotifyApiRequest parse .timedOut) =
      ⟨createEmptyTrackInfo "Connecting..." "Loading track info", st, 1⟩)
    ∧ (getCurrentTrack now st (spotifyApiRequest parse (.response 200 body)) =
      ⟨createEmptyTrackInfo "Connecting..." "Loading track info", st, 1⟩)
    ∧ (getCurrentTrack now st (spotifyApiRequest parse (.response 401 body)) =
      ⟨createEmptyTrackInfo "Authentication expired" "Please re-authenticate", st, 1⟩) := by
  have hto : strictlyContains "Request timeout" "401" = false := by decide
  have hpf : strictlyContains "Failed to parse response" "401" = false := by decide
  have h401s : strictlyContains (toString 401 ++ ": " ++ body) "401" = true := rfl
  refine ⟨?_, ?_, rfl, ?_, ?_, ?_⟩
  · unfold getCurrentTrack
    simp [hexp, htok, h401]
  · unfold getCurrentTrack
    simp [hexp, htok, hoth]
  · unfold getCurrentTrack
    simp [hexp, htok, spotifyApiRequest, hto]
  · unfold getCurrentTrack
    simp [hexp, htok, spotifyApiRequest, hbad, hpf]
  · unfold getCurrentTrack
    simp [hexp, htok, spotifyApiRequest, h401s]

theorem c5_witness :
    (tokenExpiredNow 10 (⟨some "tok", some 99, none, none, []⟩ : ExtState).tokenExpiresAt = false)
    ∧ (jsTruthyStr (⟨some "tok", some 99, none, none, []⟩ : ExtState).accessToken = true)
    ∧ (strictlyContains "401: Unauthorized" "401" = true)
    ∧ (strictlyContains "Request timeout" "401" = false)
    ∧ ((fun _ => (none : Option (Option PlayingData))) "bad" = none)
    ∧ (getCurrentTrack 10 ⟨some "tok", some 99, none, none, []⟩ (.rejected "401: Unauthorized") =
        ⟨createEmptyTrackInfo "Authentication expired" "Please re-authenticate",
         ⟨some "tok", some 99, none, none, []⟩, 1⟩) :=
  ⟨by decide, by decide, by decide, by decide, rfl,
   (c5_failure_snapshots 10 ⟨some "tok", some 99, none, none, []⟩
      "401: Unauthorized" "Request timeout" "bad" (fun _ => none)
      (by decide) (by decide) (by decide) (by decide) rfl).1⟩

/-- Claim C6: an HTTP 204 from the currently-playing endpoint makes
`spotifyApiRequest` resolve to the null payload (never an error), and
`getCurrentTrack` maps that null payload — as well as any response
missing a track item — to the "no track playing" snapshot. -/
theorem c6_no_track (now : Int) (st : ExtState) (body : String)
    (parse : String → Option (Option PlayingData)) (d : PlayingData)
    (hexp : tokenExpiredNow now st.tokenExpiresAt = false)
    (htok : jsTruthyStr st.accessToken = true)
    (hitem : d.item = none) :
    (spotifyApiRequest parse (.response 204 body) = .resolved none)
    ∧ (getCurrentTrack now st (spotifyApiRequest parse (.response 204 body)) =
      ⟨createEmptyTrackInfo "No track playing" "Start playing music on Spotify", st, 1⟩)
    ∧ (getCurrentTrack now st (.resolved (some d)) =
      ⟨createEmptyTrackInfo "No track playing" "Start playing music on Spotify", st, 1⟩) := by
  refine ⟨rfl, ?_, ?_⟩
  · unfold getCurrentTrack
    simp [hexp, htok, spotifyApiRequest]
  · unfold getCurrentTrack
    simp [hexp, htok, hitem]

theorem c6_witness :
    (tokenExpiredNow 10 (⟨some "tok", some 99, none, none, []⟩ : ExtState).tokenExpiresAt = false)
    ∧ (jsTruthyStr (⟨some "tok", some 99, none, none, []⟩ : ExtState).accessToken = true)
    ∧ ((⟨true, none, some 3⟩ : PlayingData).item = none)
    ∧ (getCurrentTrack 10 ⟨some "tok", some 99, none, none, []⟩
        (spotifyApiRequest (fun _ => none) (.response 204 "")) =
      ⟨createEmptyTrackInfo "No track playing" "Start playing music on Spotify",
       ⟨some "tok", some 99, none, none, []⟩, 1⟩) :=
  ⟨by decide, by decide, rfl,
   (c6_no_track 10 ⟨some "tok", some 99, none, none, []⟩ "" (fun _ => none)
      ⟨true, none, some 3⟩ (by decide) (by decide) rfl).2.1⟩

/-- Claim C7: with valid-looking credentials, a successful
currently-playing response containing a track item maps provider fields
into the snapshot: the artist field joins all artist names with ", "
(two artists yield "A, B"), the album art is the URL of the first album
image or the empty string, and progress/duration default to 0 when the
corresponding fields are absent (`lastTrackId` is updated to the item's
id; one API call is made). -/
theorem c7_success_mapping (now : Int) (st : ExtState) (d : PlayingData)
    (it : TrackItem) (a1 a2 : String)
    (hexp : tokenExpiredNow now st.tokenExpiresAt = false)
    (htok : jsTruthyStr st.accessToken = true)
    (hitem : d.item = some it) :
    (getCurrentTrack now st (.resolved (some d)) =
      ⟨{ isPlaying := d.is_playing
         track := some it.name
         artist := joinSep ", " (it.artists.map SpotifyArtist.name)
         album := it.album.name
         albumArt := match it.album.images.head? with
           | some i => i.url
           | none => ""
         progress := d.progress_ms.getD 0
         duration := it.duration_ms.getD 0
         error := false },
       { st with lastTrackId := some it.id }, 1⟩)
    ∧ (it.artists.map SpotifyArtist.name = [a1, a2] →
        (getCurrentTrack now st (.resolved (some d))).info.artist = a1 ++ ", " ++ a2)
    ∧ (it.album.images = [] →
        (getCurrentTrack now st (.resolved (some d))).info.albumArt = "")
    ∧ (d.progress_ms = none →
        (getCurrentTrack now st (.resolved (some d))).info.progress = 0)
    ∧ (it.duration_ms = none →
        (getCurrentTrack now st (.resolved (some d))).info.duration = 0) := by
  have hmain : getCurrentTrack now st (.resolved (some d)) =
      ⟨{ isPlaying := d.is_playing
         track := some it.name
         artist := joinSep ", " (it.artists.map SpotifyArtist.name)
         album := it.album.name
         albumArt := match it.album.images.head? with
           | some i => i.url
           | none => ""
         progress := d.progress_ms.getD 0
         duration := it.duration_ms.getD 0
         error := false },
       { st with lastTrackId := some it.id }, 1⟩ := by
    unfold getCurrentTrack
    simp [hexp, htok, hitem]
  refine ⟨hmain, ?_, ?_, ?_, ?_⟩
  · intro hnames
    rw [hmain]
    simp [hnames, joinSep]
  · intro himg
    rw [hmain]
    simp [himg]
  · intro hpr
    rw [hmain]
    simp [hpr]
  · intro hdu
    rw [hmain]
    simp [hdu]

theorem c7_witness :
    (tokenExpiredNow 10 (⟨some "tok", some 99, none, none, []⟩ : ExtState).tokenExpiresAt = false)
    ∧ (jsTruthyStr (⟨some "tok", some 99, none, none, []⟩ : ExtState).accessToken = true)
    ∧ ((⟨true, some ⟨"id1", "Song", [⟨"Artist A"⟩, ⟨"Artist B"⟩], ⟨"Album", []⟩, none⟩,
        none⟩ : PlayingData).item
      = some ⟨"id1", "Song", [⟨"Artist A"⟩, ⟨"Artist B"⟩], ⟨"Album", []⟩, none⟩)
    ∧ ((getCurrentTrack 10 ⟨some "tok", some 99, none, none, []⟩
        (.resolved (some ⟨true, some ⟨"id1", "Song", [⟨"Artist A"⟩, ⟨"Artist B"⟩],
          ⟨"Album", []⟩, none⟩, none⟩))).info.artist = "Artist A" ++ ", " ++ "Artist B") :=
  ⟨by decide, by decide, rfl,
   (c7_success_mapping 10 ⟨some "tok", some 99, none, none, []⟩
      ⟨true, some ⟨"id1", "Song", [⟨"Artist A"⟩, ⟨"Artist B"⟩], ⟨"Album", []⟩, none⟩, none⟩
      ⟨"id1", "Song", [⟨"Artist A"⟩, ⟨"Artist B"⟩], ⟨"Album", []⟩, none⟩
      "Artist A" "Artist B" (by decide) (by decide) rfl).2.1 rfl⟩

/-- Claim C8: storing a token-expiry instant under
'spotifyTokenExpiresAt' and reading that key back is the identity: both
for a bare store round-trip and through the code paths —
`completeAuthentication` writes the expiry it computed, and the state
`activate` loads from that store carries the same instant. -/
theorem c8_expiry_roundtrip (t now : Int) (gs : List (String × StoredValue))
    (st : ExtState) (code v cid : String) (p : TokenPayload) :
    (gsGetNum (gsUpdate gs "spotifyTokenExpiresAt" (some (.num t)))
      "spotifyTokenExpiresAt" = some t)
    ∧ ((completeAuthentication now st code v cid (.success p)).1.tokenExpiresAt
      = some (now + p.expires_in * 1000))
    ∧ ((activateLoad (completeAuthentication now st code v cid (.success p)).1.globalState).tokenExpiresAt
      = some (now + p.expires_in * 1000)) := by
  refine ⟨?_, rfl, ?_⟩
  · unfold gsGetNum
    rw [gsGet_update_self]
  · show gsGetNum (gsUpdate
        (gsUpdate st.globalState "spotifyAccessToken" (some (.str p.access_token)))
        "spotifyTokenExpiresAt" (some (.num (now + p.expires_in * 1000))))
      "spotifyTokenExpiresAt" = some (now + p.expires_in * 1000)
    unfold gsGetNum
    rw [gsGet_update_self]

/-- Claim C9: for every command kind and every outcome of the keystroke
injection, `sendSpotifyCommand` returns no value (`Unit`) and leaves the
entire module state — access token, token expiry, pending verifier,
`lastTrackId`, and the durable store — unchanged; a failure only
produces a log entry, and the only outward effect is the single
PowerShell command line handed to `exec`. -/
theorem c9_frame (cmd : SpotifyCommand) (outcome : ExecOutcome) (st : ExtState) :
    ((sendSpotifyCommand cmd outcome st).1 = st)
    ∧ ((sendSpotifyCommand cmd outcome st).2.2 = ())
    ∧ ((sendSpotifyCommand cmd outcome st).1.accessToken = st.accessToken)
    ∧ ((sendSpotifyCommand cmd outcome st).1.tokenExpiresAt = st.tokenExpiresAt)
    ∧ ((sendSpotifyCommand cmd outcome st).1.pendingCodeVerifier = st.pendingCodeVerifier)
    ∧ ((sendSpotifyCommand cmd outcome st).1.lastTrackId = st.lastTrackId)
    ∧ ((sendSpotifyCommand cmd outcome st).1.globalState = st.globalState)
    ∧ ((sendSpotifyCommand cmd outcome st).2.1.execLine = execCommandLine cmd)
    ∧ ((sendSpotifyCommand cmd outcome st).2.1.logs =
        match outcome with
        | .ok => []
        | .failed m => ["Error sending command: " ++ m]) :=
  ⟨rfl, rfl, rfl, rfl, rfl, rfl, rfl, rfl, rfl⟩

/-- Claim C10: every snapshot `getCurrentTrack` produces either is a
success snapshot (no error flag) or has the fixed degraded shape —
`isPlaying = false`, `track = null`, `albumArt = ""`, `progress = 0`,
`duration = 0`, `error = true` — with the headline/detail strings in the
artist/album fields drawn from the five degraded pairs (token expired,
not authenticated, no track playing, authentication expired,
connecting). -/
theorem c10_degraded_shape (now : Int) (st : ExtState) (api : ApiOutcome) :
    (getCurrentTrack now st api).info.error = false
    ∨ ((getCurrentTrack now st api).info.isPlaying = false
       ∧ (getCurrentTrack now st api).info.track = none
       ∧ (getCurrentTrack now st api).info.albumArt = ""
       ∧ (getCurrentTrack now st api).info.progress = 0
       ∧ (getCurrentTrack now st api).info.duration = 0
       ∧ (getCurrentTrack now st api).info.error = true
       ∧ (getCurrentTrack now st api).info =
           createEmptyTrackInfo (getCurrentTrack now st api).info.artist
             (getCurrentTrack now st api).info.album
       ∧ ((getCurrentTrack now st api).info.artist,
          (getCurrentTrack now st api).info.album) ∈ degradedPairs) := by
  unfold getCurrentTrack
  split
  · exact Or.inr ⟨rfl, rfl, rfl, rfl, rfl, rfl, rfl, by simp [degradedPairs, createEmptyTrackInfo]⟩
  · split
    · exact Or.inr ⟨rfl, rfl, rfl, rfl, rfl, rfl, rfl, by simp [degradedPairs, createEmptyTrackInfo]⟩
    · split
      · exact Or.inr ⟨rfl, rfl, rfl, rfl, rfl, rfl, rfl, by simp [degradedPairs, createEmptyTrackInfo]⟩
      · split
        · exact Or.inr ⟨rfl, rfl, rfl, rfl, rfl, rfl, rfl, by simp [degradedPairs, createEmptyTrackInfo]⟩
        · exact Or.inl rfl
      · split
        · exact Or.inr ⟨rfl, rfl, rfl, rfl, rfl, rfl, rfl, by simp [degradedPairs, createEmptyTrackInfo]⟩
        · exact Or.inr ⟨rfl, rfl, rfl, rfl, rfl, rfl, rfl, by simp [degradedPairs, createEmptyTrackInfo]⟩
